import Mathlib

/-!
Shallow embedding of servo_control_gui.py (class EtherCATController and the
GUI enable sequence).  Process-data buffers are lists of byte values
(each < 256 in practice), Python byte-string slicing and bytearray slice
assignment are modelled explicitly, struct packing and unpacking follow the
struct module's semantics, and methods that can raise struct.error return a
raised-flag alongside the buffer.
-/

/-- Control word value for the Shutdown command (CW_SHUTDOWN). -/
def CW_SHUTDOWN : Nat := 0x06

/-- Control word value for the Switch On command (CW_SWITCH_ON). -/
def CW_SWITCH_ON : Nat := 0x07

/-- Control word value for the Enable Operation command (CW_ENABLE_OPERATION). -/
def CW_ENABLE_OPERATION : Nat := 0x0F

/-- Status word mask for the ready-to-switch-on bit (SW_READY_TO_SWITCH_ON). -/
def SW_READY_TO_SWITCH_ON : Nat := 0x0001

/-- Status word mask for the fault bit (SW_FAULT). -/
def SW_FAULT : Nat := 0x0008

/-- Status word mask for the switch-on-disabled bit (SW_SWITCH_ON_DISABLED). -/
def SW_SWITCH_ON_DISABLED : Nat := 0x0040

/-- Python byte-string slicing xs[a:b] for nonnegative bounds: both indices
are clamped to the length of the sequence, and the result is the elements at
positions a up to b-1; slicing never raises. -/
def pySlice (xs : List Nat) (a b : Nat) : List Nat :=
  (xs.take b).drop a

/-- Python bytearray slice assignment ba[o : o + data.length] = data for a
nonnegative offset: both slice bounds are clamped to the current length
(List.take and List.drop clamp beyond the end), so an offset past the end of
the buffer splices the data at the current end. -/
def pySliceAssign (buf : List Nat) (o : Nat) (data : List Nat) : List Nat :=
  buf.take o ++ data ++ buf.drop (o + data.length)

/-- struct.pack of an unsigned 16-bit value in little-endian byte order. -/
def pack_u16 (n : Nat) : List Nat :=
  [n % 256, n / 256 % 256]

/-- struct.pack of an unsigned 32-bit value in little-endian byte order. -/
def pack_u32 (n : Nat) : List Nat :=
  [n % 256, n / 256 % 256, n / 65536 % 256, n / 16777216 % 256]

/-- struct.pack of format b (signed byte): struct.error (modelled as none)
outside [-128, 127], otherwise the single two's-complement byte. -/
def pack_i8 (m : Int) : Option (List Nat) :=
  if -128 ≤ m ∧ m ≤ 127 then some [(m % 256).toNat] else none

/-- struct.pack of a little-endian signed 32-bit value (format <i):
struct.error (none) outside the 32-bit signed range, otherwise the four
two's-complement bytes, little-endian. -/
def pack_i32 (m : Int) : Option (List Nat) :=
  if -2147483648 ≤ m ∧ m ≤ 2147483647 then
    some (pack_u32 ((m % 4294967296).toNat))
  else none

/-- struct.unpack of a little-endian unsigned 16-bit value: struct.error
(none) unless the input is exactly two bytes. -/
def unpack_u16 (bs : List Nat) : Option Nat :=
  match bs with
  | [b0, b1] => some (b0 + 256 * b1)
  | _ => none

/-- struct.unpack of a little-endian signed 32-bit value: struct.error (none)
unless the input is exactly four bytes. -/
def unpack_i32 (bs : List Nat) : Option Int :=
  match bs with
  | [b0, b1, b2, b3] =>
      some (if b0 + 256 * b1 + 65536 * b2 + 16777216 * b3 < 2147483648 then
              ((b0 + 256 * b1 + 65536 * b2 + 16777216 * b3 : Nat) : Int)
            else
              ((b0 + 256 * b1 + 65536 * b2 + 16777216 * b3 : Nat) : Int) - 4294967296)
  | _ => none

/-- struct.unpack of a signed byte (format b): struct.error (none) unless the
input is exactly one byte. -/
def unpack_i8 (bs : List Nat) : Option Int :=
  match bs with
  | [b0] => some (if b0 < 128 then (b0 : Int) else (b0 : Int) - 256)
  | _ => none

/-- EtherCATController._write_pdo: read-modify-write of the output process
data; the slice at the given offset is replaced through Python bytearray
slice assignment and the whole buffer written back. -/
def write_pdo (offset : Nat) (data buf : List Nat) : List Nat :=
  pySliceAssign buf offset data

/-- EtherCATController._read_pdo: a plain slice of the input process data. -/
def read_pdo (offset length : Nat) (buf : List Nat) : List Nat :=
  pySlice buf offset (offset + length)

/-- EtherCATController.shutdown: write control word CW_SHUTDOWN at offset 0. -/
def shutdown (buf : List Nat) : List Nat :=
  write_pdo 0 (pack_u16 CW_SHUTDOWN) buf

/-- EtherCATController.switch_on: write control word CW_SWITCH_ON at offset 0. -/
def switch_on (buf : List Nat) : List Nat :=
  write_pdo 0 (pack_u16 CW_SWITCH_ON) buf

/-- EtherCATController.enable_operation: write control word
CW_ENABLE_OPERATION at offset 0. -/
def enable_operation (buf : List Nat) : List Nat :=
  write_pdo 0 (pack_u16 CW_ENABLE_OPERATION) buf

/-- ServoGUI._enable_drive_sequence: shutdown, then switch_on, then
enable_operation; the sleeps between the writes do not affect the buffer. -/
def enable_drive_sequence (buf : List Nat) : List Nat :=
  enable_operation (switch_on (shutdown buf))

/-- EtherCATController.set_operation_mode: struct.pack of format b is
evaluated before _write_pdo runs, so an out-of-range mode raises struct.error
(flag true) with the output buffer untouched; otherwise the byte is written
at offset 10. -/
def set_operation_mode (mode : Int) (buf : List Nat) : Bool × List Nat :=
  match pack_i8 mode with
  | none => (true, buf)
  | some data => (false, write_pdo 10 data buf)

/-- EtherCATController.set_target_velocity: struct.pack of format <i is
evaluated before _write_pdo runs, so an out-of-range velocity raises
struct.error (flag true) with the buffer untouched; otherwise the four bytes
are written at offset 6. -/
def set_target_velocity (velocity : Int) (buf : List Nat) : Bool × List Nat :=
  match pack_i32 velocity with
  | none => (true, buf)
  | some data => (false, write_pdo 6 data buf)

/-- EtherCATController.set_target_position: struct.pack of format <i is
evaluated before _write_pdo runs, so an out-of-range position raises
struct.error (flag true) with the buffer untouched; otherwise the four bytes
are written at offset 2. -/
def set_target_position (position : Int) (buf : List Nat) : Bool × List Nat :=
  match pack_i32 position with
  | none => (true, buf)
  | some data => (false, write_pdo 2 data buf)

/-- Snapshot dictionary returned by EtherCATController.get_status. -/
structure StatusSnapshot where
  status_word : Nat
  actual_position : Int
  actual_velocity : Int
  mode_display : Int
deriving DecidableEq, Repr

/-- EtherCATController.get_status: four slice reads of the input buffer and
their unpacks in source order; the first struct.error aborts and the except
branch returns the all-zero snapshot. -/
def get_status (input : List Nat) : StatusSnapshot :=
  (do
    let sw ← unpack_u16 (read_pdo 0 2 input)
    let pa ← unpack_i32 (read_pdo 2 4 input)
    let va ← unpack_i32 (read_pdo 6 4 input)
    let md ← unpack_i8 (read_pdo 10 1 input)
    pure (StatusSnapshot.mk sw pa va md) : Option StatusSnapshot).getD
    (StatusSnapshot.mk 0 0 0 0)

/-- EtherCATController.parse_status_word: ordered mask tests on the status
word, fault first, returning the human-readable drive state name. -/
def parse_status_word (sw : Nat) : String :=
  if sw &&& SW_FAULT ≠ 0 then "Fault"
  else if sw &&& SW_READY_TO_SWITCH_ON = 0 then "Not Ready"
  else if sw &&& SW_SWITCH_ON_DISABLED ≠ 0 then "Switch On Disabled"
  else if sw &&& 0x04F7 = 0x0031 then "Switched On"
  else if sw &&& 0x04F7 = 0x0037 then "Operation Enabled"
  else if sw &&& 0x04F7 = 0x0021 then "Ready to Switch On"
  else "Unknown State"

/-- C1: parse_status_word is total on 16-bit status words, always returning
one of the seven drive-state names, and whenever the Fault bit 0x0008 is set
it returns Fault regardless of every other bit, the fault test being first. -/
theorem parse_status_word_total_and_fault_priority (sw : Nat) (h : sw < 65536) :
    parse_status_word sw ∈
      ["Fault", "Not Ready", "Switch On Disabled", "Switched On",
       "Operation Enabled", "Ready to Switch On", "Unknown State"] ∧
    (sw &&& SW_FAULT ≠ 0 → parse_status_word sw = "Fault") := by
  constructor
  · unfold parse_status_word
    repeat' split
    all_goals simp
  · intro hf
    unfold parse_status_word
    rw [if_pos hf]

/-- C1 witness: the concrete 16-bit status word 0x0818 has the Fault bit set
and the decoder returns Fault. -/
theorem parse_status_word_total_and_fault_priority_witness :
    parse_status_word 0x0818 = "Fault" :=
  (parse_status_word_total_and_fault_priority 0x0818 (by decide)).2 (by decide)

/-- C4: with the Fault bit clear, the ready-to-switch-on bit set and the
switch-on-disabled bit clear, the 0x04F7-masked comparisons decide the state:
0x0031 yields Switched On, 0x0037 Operation Enabled and 0x0021 Ready to
Switch On; in particular the status words 0x0031 and 0x0037 decode to
Switched On and Operation Enabled. -/
theorem parse_status_word_masked_states (sw : Nat)
    (hf : sw &&& SW_FAULT = 0) (hr : sw &&& SW_READY_TO_SWITCH_ON ≠ 0)
    (hd : sw &&& SW_SWITCH_ON_DISABLED = 0) :
    parse_status_word 0x0031 = "Switched On" ∧
    parse_status_word 0x0037 = "Operation Enabled" ∧
    (sw &&& 0x04F7 = 0x0031 → parse_status_word sw = "Switched On") ∧
    (sw &&& 0x04F7 = 0x0037 → parse_status_word sw = "Operation Enabled") ∧
    (sw &&& 0x04F7 = 0x0021 → parse_status_word sw = "Ready to Switch On") := by
  simp [SW_FAULT, SW_READY_TO_SWITCH_ON, SW_SWITCH_ON_DISABLED] at hf hr hd
  refine ⟨by decide, by decide, ?_, ?_, ?_⟩ <;> intro hm <;>
    simp [parse_status_word, SW_FAULT, SW_READY_TO_SWITCH_ON,
      SW_SWITCH_ON_DISABLED, hf, hr, hd, hm]

/-- C4 witness: the concrete status word 0x0131 satisfies the three bit
hypotheses, its 0x04F7 mask equals 0x0031, and it decodes to Switched On. -/
theorem parse_status_word_masked_states_witness :
    parse_status_word 0x0131 = "Switched On" :=
  (parse_status_word_masked_states 0x0131 (by decide) (by decide)
    (by decide)).2.2.1 (by decide)

/-- C2 counterexample: on the one-byte input buffer [0x05], reading two bytes
at offset 0 returns the single available byte: the result is not zero-filled
to the requested length, which the claim asserts for every short buffer. -/
theorem read_pdo_zero_fill_counterexample :
    read_pdo 0 2 [0x05] = [0x05] ∧ (read_pdo 0 2 [0x05]).length ≠ 2 := by
  decide

/-- C2 amended: read_pdo never raises but truncates: the result length is the
minimum of the requested length and the bytes available past the offset, and
entry i is the buffer byte at offset + i for i below the requested length
(defaulting to 0 exactly where the buffer has ended). -/
theorem read_pdo_truncating_slice (o l : Nat) (buf : List Nat) :
    (read_pdo o l buf).length = min l (buf.length - o) ∧
    ∀ i : Nat, (read_pdo o l buf).getD i 0 =
      if i < l then buf.getD (o + i) 0 else 0 := by
  constructor
  · simp only [read_pdo, pySlice, List.length_drop, List.length_take]
    omega
  · intro i
    by_cases hi : i < l
    · rw [if_pos hi]
      simp only [read_pdo, pySlice, List.getD_eq_getElem?_getD,
        List.getElem?_drop]
      rw [List.getElem?_take_of_lt (by omega)]
    · rw [if_neg hi]
      refine List.getD_eq_default _ _ ?_
      simp only [read_pdo, pySlice, List.length_drop, List.length_take]
      omega

/-- C5: in-bounds writes are frame-preserving: when offset + data.length does
not exceed the buffer length, write_pdo keeps the buffer length, keeps every
byte below the offset and at or above offset + data.length, and places the
data bytes inside the targeted range. -/
theorem write_pdo_frame (offset : Nat) (data buf : List Nat)
    (h : offset + data.length ≤ buf.length) :
    (write_pdo offset data buf).length = buf.length ∧
    (∀ i : Nat, i < offset →
      (write_pdo offset data buf).getD i 0 = buf.getD i 0) ∧
    (∀ i : Nat, offset + data.length ≤ i →
      (write_pdo offset data buf).getD i 0 = buf.getD i 0) ∧
    (∀ j : Nat, j < data.length →
      (write_pdo offset data buf).getD (offset + j) 0 = data.getD j 0) := by
  have hA : (buf.take offset).length = offset := by
    simp only [List.length_take]
    omega
  refine ⟨?_, ?_, ?_, ?_⟩
  · simp only [write_pdo, pySliceAssign, List.length_append, List.length_take,
      List.length_drop]
    omega
  · intro i hi
    rw [write_pdo, pySliceAssign, List.append_assoc,
      List.getD_append _ _ _ _ (by omega),
      List.getD_eq_getElem?_getD, List.getD_eq_getElem?_getD,
      List.getElem?_take_of_lt hi]
  · intro i hi
    rw [write_pdo, pySliceAssign,
      List.getD_append_right _ _ _ _ (by simp only [List.length_append]; omega)]
    have hidx : offset + data.length +
        (i - ((buf.take offset ++ data).length)) = i := by
      simp only [List.length_append]
      omega
    rw [List.getD_eq_getElem?_getD, List.getElem?_drop, hidx,
      List.getD_eq_getElem?_getD]
  · intro j hj
    rw [write_pdo, pySliceAssign, List.append_assoc,
      List.getD_append_right _ _ _ _ (by omega)]
    have hidx : offset + j - (buf.take offset).length = j := by omega
    rw [hidx, List.getD_append _ _ _ _ hj]

/-- C5 witness: writing two bytes at offset 1 of a four-byte buffer keeps the
length and the untouched bytes. -/
theorem write_pdo_frame_witness :
    (write_pdo 1 [9, 8] [1, 2, 3, 4]).length = 4 ∧
    (write_pdo 1 [9, 8] [1, 2, 3, 4]).getD 0 0 = 1 ∧
    (write_pdo 1 [9, 8] [1, 2, 3, 4]).getD 3 0 = 4 ∧
    (write_pdo 1 [9, 8] [1, 2, 3, 4]).getD 1 0 = 9 := by
  have h := write_pdo_frame 1 [9, 8] [1, 2, 3, 4] (by decide)
  exact ⟨h.1, h.2.1 0 (by decide), h.2.2.1 3 (by decide), h.2.2.2 0 (by decide)⟩

/-- C9: when the output buffer is shorter than the offset, Python slice
assignment clamps both bounds to the end, so write_pdo splices the data at
the current end: the result is buf ++ data, for nonempty data the length
changes, and the first written byte lands at index buf.length, not at the
requested offset. -/
theorem write_pdo_offset_past_end (offset : Nat) (data buf : List Nat)
    (h : buf.length < offset) (hd : data ≠ []) :
    write_pdo offset data buf = buf ++ data ∧
    (write_pdo offset data buf).length = buf.length + data.length ∧
    (write_pdo offset data buf).length ≠ buf.length ∧
    (write_pdo offset data buf).getD buf.length 0 = data.getD 0 0 := by
  have hdl : 0 < data.length := List.length_pos.mpr hd
  have h1 : write_pdo offset data buf = buf ++ data := by
    rw [write_pdo, pySliceAssign, List.take_of_length_le (Nat.le_of_lt h),
      List.drop_eq_nil_iff.mpr (by omega)]
    simp
  refine ⟨h1, ?_, ?_, ?_⟩
  · rw [h1]; simp
  · rw [h1]; simp only [List.length_append]; omega
  · rw [h1, List.getD_append_right _ _ _ _ (Nat.le_refl _), Nat.sub_self]

/-- C9 witness: writing one byte at offset 5 of a two-byte buffer appends it
at index 2. -/
theorem write_pdo_offset_past_end_witness :
    write_pdo 5 [7] [1, 2] = [1, 2, 7] := by
  have h := write_pdo_offset_past_end 5 [7] [1, 2] (by decide) (by decide)
  exact h.1

/-- C10: struct packing runs before _write_pdo, so each setter raises
struct.error exactly on values outside its format range, and when it raises
the output buffer is returned untouched; values are never clamped. -/
theorem setters_raise_out_of_range (m p v : Int) (buf : List Nat) :
    ((set_operation_mode m buf).1 = true ↔ (m < -128 ∨ 127 < m)) ∧
    ((m < -128 ∨ 127 < m) → set_operation_mode m buf = (true, buf)) ∧
    ((set_target_position p buf).1 = true ↔
      (p < -2147483648 ∨ 2147483647 < p)) ∧
    ((p < -2147483648 ∨ 2147483647 < p) →
      set_target_position p buf = (true, buf)) ∧
    ((set_target_velocity v buf).1 = true ↔
      (v < -2147483648 ∨ 2147483647 < v)) ∧
    ((v < -2147483648 ∨ 2147483647 < v) →
      set_target_velocity v buf = (true, buf)) := by
  refine ⟨?_, ?_, ?_, ?_, ?_, ?_⟩
  · by_cases hc : -128 ≤ m ∧ m ≤ 127 <;>
      simp [set_operation_mode, pack_i8, hc] <;> omega
  · intro hc
    have hn : ¬(-128 ≤ m ∧ m ≤ 127) := by omega
    simp [set_operation_mode, pack_i8, hn]
  · by_cases hc : -2147483648 ≤ p ∧ p ≤ 2147483647 <;>
      simp [set_target_position, pack_i32, hc] <;> omega
  · intro hc
    have hn : ¬(-2147483648 ≤ p ∧ p ≤ 2147483647) := by omega
    simp [set_target_position, pack_i32, hn]
  · by_cases hc : -2147483648 ≤ v ∧ v ≤ 2147483647 <;>
      simp [set_target_velocity, pack_i32, hc] <;> omega
  · intro hc
    have hn : ¬(-2147483648 ≤ v ∧ v ≤ 2147483647) := by omega
    simp [set_target_velocity, pack_i32, hn]

/-- C10 witness: mode 200 is outside the signed-byte range, so the setter
raises and hands back the unchanged buffer. -/
theorem setters_raise_out_of_range_witness :
    set_operation_mode 200 [1, 2] = (true, [1, 2]) :=
  (setters_raise_out_of_range 200 0 0 [1, 2]).2.1 (Or.inr (by decide))

/-- C7: the enable sequence writes the control words CW_SHUTDOWN 0x06, then
CW_SWITCH_ON 0x07, then CW_ENABLE_OPERATION 0x0F at offset 0 in that order
(each stage leaves its packed word at offset 0), and after the full sequence
the control-word bytes at offset 0 are 0x0F 0x00; on a fresh all-zero
11-byte output buffer the final buffer is exactly 0x0F 0x00 then zeros. -/
theorem enable_drive_sequence_control_words (buf : List Nat) :
    (shutdown buf).take 2 = pack_u16 CW_SHUTDOWN ∧
    (switch_on (shutdown buf)).take 2 = pack_u16 CW_SWITCH_ON ∧
    (enable_drive_sequence buf).take 2 = [0x0F, 0x00] ∧
    enable_drive_sequence (List.replicate 11 0) =
      [0x0F, 0x00] ++ List.replicate 9 0 := by
  refine ⟨rfl, rfl, rfl, by decide⟩

/-- Little-endian unsigned 16-bit value of two bytes, used to state results. -/
def decode_u16 (b0 b1 : Nat) : Nat := b0 + 256 * b1

/-- Little-endian two's-complement 32-bit value of four bytes. -/
def decode_i32 (b0 b1 b2 b3 : Nat) : Int :=
  if b0 + 256 * b1 + 65536 * b2 + 16777216 * b3 < 2147483648 then
    ((b0 + 256 * b1 + 65536 * b2 + 16777216 * b3 : Nat) : Int)
  else
    ((b0 + 256 * b1 + 65536 * b2 + 16777216 * b3 : Nat) : Int) - 4294967296

/-- Two's-complement value of one byte. -/
def decode_i8 (b0 : Nat) : Int :=
  if b0 < 128 then (b0 : Int) else (b0 : Int) - 256

/-- C8: get_status never raises: whenever the input buffer is too short for
one of the four fixed field ranges (that is, shorter than 11 bytes) it
returns the all-zero snapshot, and on a long-enough buffer it returns the
little-endian decodings of the four fields at offsets 0, 2, 6 and 10. -/
theorem get_status_total (input : List Nat) :
    get_status input =
      if 11 ≤ input.length then
        StatusSnapshot.mk
          (decode_u16 (input.getD 0 0) (input.getD 1 0))
          (decode_i32 (input.getD 2 0) (input.getD 3 0)
            (input.getD 4 0) (input.getD 5 0))
          (decode_i32 (input.getD 6 0) (input.getD 7 0)
            (input.getD 8 0) (input.getD 9 0))
          (decode_i8 (input.getD 10 0))
      else StatusSnapshot.mk 0 0 0 0 := by
  rcases input with _ | ⟨b0, _ | ⟨b1, _ | ⟨b2, _ | ⟨b3, _ | ⟨b4, _ | ⟨b5,
    _ | ⟨b6, _ | ⟨b7, _ | ⟨b8, _ | ⟨b9, _ | ⟨b10, rest⟩⟩⟩⟩⟩⟩⟩⟩⟩⟩⟩
  case cons.cons.cons.cons.cons.cons.cons.cons.cons.cons.cons =>
    rw [if_pos (by simp)]
    rfl
  all_goals rfl

/-- Unpacking the four little-endian bytes of a 32-bit signed value in range
recovers the value: the two's-complement encoding round-trips. -/
theorem unpack_pack_i32 (p : Int) (h1 : -2147483648 ≤ p)
    (h2 : p ≤ 2147483647) :
    unpack_i32 (pack_u32 ((p % 4294967296).toNat)) = some p := by
  simp only [pack_u32, unpack_i32, Option.some.injEq]
  split <;> omega

/-- C6: on a buffer of at least 10 bytes, writing target position P with
set_target_position and then reading the position sub-range (offset 2, four
bytes, little-endian signed) yields P, also when a set_target_velocity call
on the disjoint sub-range at offset 6 is interleaved before the read. -/
theorem set_target_position_round_trip (p v : Int) (buf : List Nat)
    (hp1 : -2147483648 ≤ p) (hp2 : p ≤ 2147483647)
    (hv1 : -2147483648 ≤ v) (hv2 : v ≤ 2147483647)
    (hlen : 10 ≤ buf.length) :
    unpack_i32 (read_pdo 2 4 (set_target_position p buf).2) = some p ∧
    unpack_i32 (read_pdo 2 4
      (set_target_velocity v (set_target_position p buf).2).2) = some p := by
  have hpack : pack_i32 p = some (pack_u32 ((p % 4294967296).toNat)) := by
    rw [pack_i32, if_pos (And.intro hp1 hp2)]
  have hpackv : pack_i32 v = some (pack_u32 ((v % 4294967296).toNat)) := by
    rw [pack_i32, if_pos (And.intro hv1 hv2)]
  rcases buf with _ | ⟨b0, _ | ⟨b1, _ | ⟨b2, _ | ⟨b3, _ | ⟨b4, _ | ⟨b5,
    _ | ⟨b6, _ | ⟨b7, _ | ⟨b8, _ | ⟨b9, rest⟩⟩⟩⟩⟩⟩⟩⟩⟩⟩
  case cons.cons.cons.cons.cons.cons.cons.cons.cons.cons =>
    constructor
    · rw [set_target_position, hpack]
      exact unpack_pack_i32 p hp1 hp2
    · rw [set_target_position, hpack, set_target_velocity, hpackv]
      exact unpack_pack_i32 p hp1 hp2
  all_goals simp at hlen

/-- C6 witness: position 5 written to a fresh 10-byte buffer survives an
interleaved velocity write of 7 and reads back as 5. -/
theorem set_target_position_round_trip_witness :
    unpack_i32 (read_pdo 2 4
      (set_target_velocity 7
        (set_target_position 5 (List.replicate 10 0)).2).2) = some 5 :=
  (set_target_position_round_trip 5 7 (List.replicate 10 0) (by decide)
    (by decide) (by decide) (by decide) (by decide)).2

/-- EtherCATController._drive_setup_func: the ordered list of sdo_write calls
(index, subindex, payload bytes) it issues, in source order.  struct.pack
with format H uses native byte order, little-endian on the reference
platform, hence pack_u16 for the assignment entries. -/
def drive_setup_writes : List (Nat × Nat × List Nat) :=
  [ (0x1c12, 0, [0x00]),
    (0x1c12, 1, pack_u16 0x1600),
    (0x1c12, 0, [0x01]),
    (0x1c13, 0, [0x00]),
    (0x1c13, 1, pack_u16 0x1a00),
    (0x1c13, 0, [0x01]),
    (0x1600, 0, [0x00]),
    (0x1600, 1, pack_u32 0x60400010),
    (0x1600, 2, pack_u32 0x607A0020),
    (0x1600, 3, pack_u32 0x60FF0020),
    (0x1600, 4, pack_u32 0x60600008),
    (0x1600, 0, [0x04]),
    (0x1A00, 0, [0x00]),
    (0x1A00, 1, pack_u32 0x60410010),
    (0x1A00, 2, pack_u32 0x60640020),
    (0x1A00, 3, pack_u32 0x606C0020),
    (0x1A00, 4, pack_u32 0x60610008),
    (0x1A00, 0, [0x04]) ]

/-- Write order claimed by spec section 4.2, following its words: first zero
the output-side count object and the input-side count object, then write the
assignment entries and set both assignment counts to 1, then the complete
output mapping table block, then the complete input mapping table block.
Kept only to compare against drive_setup_writes, which follows the source. -/
def spec_setup_write_order : List (Nat × Nat × List Nat) :=
  [ (0x1c12, 0, [0x00]),
    (0x1c13, 0, [0x00]),
    (0x1c12, 1, pack_u16 0x1600),
    (0x1c12, 0, [0x01]),
    (0x1c13, 1, pack_u16 0x1a00),
    (0x1c13, 0, [0x01]),
    (0x1600, 0, [0x00]),
    (0x1600, 1, pack_u32 0x60400010),
    (0x1600, 2, pack_u32 0x607A0020),
    (0x1600, 3, pack_u32 0x60FF0020),
    (0x1600, 4, pack_u32 0x60600008),
    (0x1600, 0, [0x04]),
    (0x1A00, 0, [0x00]),
    (0x1A00, 1, pack_u32 0x60410010),
    (0x1A00, 2, pack_u32 0x60640020),
    (0x1A00, 3, pack_u32 0x606C0020),
    (0x1A00, 4, pack_u32 0x60610008),
    (0x1A00, 0, [0x04]) ]

/-- C3 counterexample: the issued sequence differs from the order the claim
states: the second write is already the output assignment entry at 0x1c12
subindex 1, and the zeroing of the input-side count at 0x1c13 only comes
fourth, after the output assignment block; the first two writes also are not
a pair of count zeroings under either reading of the claimed step one. -/
theorem drive_setup_order_counterexample :
    drive_setup_writes ≠ spec_setup_write_order ∧
    (drive_setup_writes.map (fun w => (w.1, w.2.1))).take 4 =
      [(0x1c12, 0), (0x1c12, 1), (0x1c12, 0), (0x1c13, 0)] ∧
    (drive_setup_writes.map (fun w => (w.1, w.2.1))).take 2 ≠
      [(0x1600, 0), (0x1A00, 0)] := by
  refine ⟨by decide, by decide, by decide⟩

/-- C3 amended: the configurator issues, in order, the complete output
assignment block at 0x1c12 (zero the count, write the entry 0x1600, set the
count to 1), then the complete input assignment block at 0x1c13, then the
output mapping table block at 0x1600 (clear the count, four entries in offset
order, set the count to 4), then the same for the input mapping table at
0x1A00; the first 0x1A00 write comes at position 12, after the complete
0x1600 sequence. -/
theorem drive_setup_order_amended :
    drive_setup_writes.map (fun w => (w.1, w.2.1)) =
      [(0x1c12, 0), (0x1c12, 1), (0x1c12, 0),
       (0x1c13, 0), (0x1c13, 1), (0x1c13, 0),
       (0x1600, 0), (0x1600, 1), (0x1600, 2),
       (0x1600, 3), (0x1600, 4), (0x1600, 0),
       (0x1A00, 0), (0x1A00, 1), (0x1A00, 2),
       (0x1A00, 3), (0x1A00, 4), (0x1A00, 0)] ∧
    drive_setup_writes.findIdx (fun w => w.1 == 0x1A00) = 12 ∧
    (drive_setup_writes.take 12).filter (fun w => w.1 == 0x1600) =
      drive_setup_writes.filter (fun w => w.1 == 0x1600) ∧
    (drive_setup_writes.filter (fun w => w.1 == 0x1600)).map (fun w => w.2) =
      [(0, [0x00]), (1, pack_u32 0x60400010), (2, pack_u32 0x607A0020),
       (3, pack_u32 0x60FF0020), (4, pack_u32 0x60600008), (0, [0x04])] ∧
    (drive_setup_writes.filter (fun w => w.1 == 0x1A00)).map (fun w => w.2) =
      [(0, [0x00]), (1, pack_u32 0x60410010), (2, pack_u32 0x60640020),
       (3, pack_u32 0x606C0020), (4, pack_u32 0x60610008), (0, [0x04])] := by
  refine ⟨by decide, by decide, by decide, by decide, by decide⟩
